import Mathlib

/-!
Verification development for the SEMEC-SISTEMA repository: a shallow
embedding of the repository's school-staff attendance ("folha") server
variants and proofs about their submission, merge, aggregation, auth and
validation behaviour.

The repository contains several concatenated server variants.  We embed
each variant that the properties under study touch:

* `VariantA`  : first section of `src/server.js` (plain INSERT log,
  naive login against `process.env.ADMIN_PASSWORD`).
* `VariantB`  : second section of `src/server.js` (transactional
  `POST /api/folha/enviar` with `ON CONFLICT` upserts, fill-don't-erase
  employee merge, 0..15 clamping, `GET /api/admin/mes` LEFT JOIN roster,
  `PUT /api/registros/:id`).
* `VariantC`  : third section of `src/server.js` (non-transactional
  upserts, mirrored `falta_com_atestado`/`falta_sem_atestado` columns,
  role-checking `requireAdmin`, fail-closed login).
* `Part001`   : `src/unnamed/part_001` (employee upsert that plainly
  overwrites with `EXCLUDED` values).
* `Part002A`  : first section of `src/unnamed/part_002`
  (`GET /api/admin/folhas` inner JOIN roster).
* `Part002B`  : second section of `src/unnamed/part_002`
  (`POST /api/folha/lancar`, which increments counters).
* `Part004`   : `src/unnamed/part_004` (`requireAdmin` that verifies the
  token but never checks the role).
* `Part005A`  : first section of `src/unnamed/part_005`
  (`POST /api/folha/enviar` with the mirrored
  `falta_com_atestado`/`falta_sem_atestado` bind and an employee upsert
  that refreshes only the timestamp on conflict).

SQL tables are modeled as Lean lists of rows; `INSERT ... ON CONFLICT
DO UPDATE` is modeled by the generic `Table.upsert`, which updates every
row matching the conflict key (the unique constraint guarantees at most
one in the database) and appends otherwise.  JavaScript `undefined` is
modeled by `Option`; numeric request fields are `Option Int` with `none`
standing for absent/non-finite input.  Timestamp and JSONB payload
columns are omitted: none of the properties below mention them.
Failures of individual database statements (network/constraint errors
surfacing through the JS `try`/`catch`) are modeled by explicit boolean
oracle parameters where a property is about failure behaviour.
-/

namespace SemecSistema

/-- Model of JavaScript `String.prototype.trim` on the character list:
strip leading and trailing whitespace.  (Lean's built-in `String.trim`
computes the same string but does not reduce inside the kernel, so the
model is phrased over `List Char`.) -/
def trimChars (l : List Char) : List Char :=
  ((l.dropWhile Char.isWhitespace).reverse.dropWhile Char.isWhitespace).reverse

/-- JavaScript `s.trim()`. -/
def jsTrim (s : String) : String := String.mk (trimChars s.data)

/-- Does the string match the regular expression `^\d{4}-\d{2}$`
(four digits, a dash, two digits)?  Used by every variant's period
validation. -/
def matchesPeriodo (s : String) : Bool :=
  match s.data with
  | [a, b, c, d, e, f, g] =>
      a.isDigit && b.isDigit && c.isDigit && d.isDigit &&
      (e = '-') && f.isDigit && g.isDigit
  | _ => false

/-- Embedding of `normalizePeriodo` (src/server.js:342-348): a falsy
(empty) input yields `null`; otherwise the trimmed string must match
`^\d{4}-\d{2}$`.  There is no check that the month lies in 01..12. -/
def normalizePeriodo (p : String) : Option String :=
  if p = "" then none
  else
    let s := jsTrim p
    if matchesPeriodo s then some s else none

/-- Embedding of `toInt(n, def)` (src/server.js:350-354): non-finite or
unparsable input becomes the default.  The already-parsed JS number is
modeled as `Option Int`, `none` standing for absent/`NaN`. -/
def toIntD (v : Option Int) (d : Int) : Int := v.getD d

/-- JS `x ?? y` / SQL `coalesce(x, y)` on nullable values. -/
def coalesceO (x y : Option α) : Option α :=
  match x with
  | some a => some a
  | none => y

/-- Join a list of strings with a separator, as SQL `STRING_AGG`. -/
def joinSep (sep : String) : List String → String
  | [] => ""
  | [x] => x
  | x :: xs => x ++ sep ++ joinSep sep xs

/-- Insert into a sorted list (auxiliary for `sortBy`). -/
def insertSorted (le : α → α → Bool) (a : α) : List α → List α
  | [] => [a]
  | b :: l => if le a b then a :: b :: l else b :: insertSorted le a l

/-- Stable insertion sort, modeling SQL `ORDER BY`.  (Chosen over
`List.mergeSort` because its structural recursion evaluates inside the
kernel.) -/
def sortBy (le : α → α → Bool) : List α → List α
  | [] => []
  | a :: l => insertSorted le a (sortBy le l)

/-- Ascending sort of strings (SQL `ORDER BY`). -/
def sortStrings (l : List String) : List String :=
  sortBy (fun a b => decide (a ≤ b)) l

/-- Shared HTTP-level response abstraction for the data routes. -/
inductive Resp
  | ok
  | badRequest (msg : String)
  | notFound
  | serverError
deriving Repr, DecidableEq

/-- Responses of the login routes. -/
inductive LoginResp
  | ok
  | unauthorized
  | badRequest
  | configError
deriving Repr, DecidableEq

/-- Outcome of an auth middleware: reject with 401, reject with 403, or
call `next()`. -/
inductive GateResult
  | unauthorized
  | forbidden
  | proceed
deriving Repr, DecidableEq

/-- Abstract model of a JWT bearer credential: either a token signed with
some secret, carrying a `role` claim and an expiry state, or a malformed
string.  An absent/empty `Authorization` header is modeled as `none` at
the use sites. -/
inductive Token
  | signed (secret : String) (role : String) (expired : Bool)
  | malformed
deriving Repr, DecidableEq

/-- Model of `jwt.verify(token, secret)`: returns the payload's role when
the token was signed with the same secret and has not expired; throws
(modeled by `none`) otherwise — covering both tampered (wrong secret)
and expired tokens. -/
def jwtVerify (secret : String) : Token → Option String
  | .signed s r ex => if s = secret ∧ ex = false then some r else none
  | .malformed => none

namespace Table

variable {α : Type}

/-- Semantics of SQL `INSERT ... VALUES (new) ON CONFLICT (key) DO UPDATE
SET ...` over a table stored as a list of rows: if some row matches the
conflict key (`hit`), every matching row is updated by `set` (the unique
constraint guarantees there is at most one in the database); otherwise
`new` is appended. -/
def upsert (hit : α → Bool) (set : α → α) (new : α) (t : List α) : List α :=
  if t.any hit then t.map fun x => if hit x then set x else x
  else t ++ [new]

end Table

/-! ## VariantA — first section of src/server.js (lines 1-265)

Table `registros` (src/server.js:42-64) has no unique constraint, and
`POST /api/reports` (src/server.js:73-107) does a plain `INSERT` per
record. -/

namespace VariantA

/-- Row of the `registros` table (src/server.js:44-58); `id` and
`created_at` omitted. -/
structure Registro where
  escola : String
  matricula : String
  nome : String
  funcao : String
  vinculo : String
  carga : String
  periodo : String
  horas : Int
  falta_atestado : Int
  falta_sem_atestado : Int
  obs : String
deriving Repr, DecidableEq

/-- An element of the `records` array posted to `/api/reports`;
every field may be absent. -/
structure RecordIn where
  matricula : Option String
  nome : Option String
  funcao : Option String
  vinculo : Option String
  carga : Option String
  period : Option String
  periodo : Option String
  horas_extras : Option Int
  horas : Option Int
  falta_atestado : Option Int
  faltaA : Option Int
  falta_sem_atestado : Option Int
  faltaS : Option Int
  obs : Option String
deriving Repr, DecidableEq

/-- Embedding of `nInt` (src/server.js:66-69): non-finite becomes 0. -/
def nInt (v : Option Int) : Int := v.getD 0

/-- The row inserted for one record by `POST /api/reports`
(src/server.js:86-100), including the `??` fallback chains. -/
def rowOfRecord (escola : String) (r : RecordIn) : Registro :=
  { escola := escola,
    matricula := r.matricula.getD "",
    nome := r.nome.getD "",
    funcao := r.funcao.getD "",
    vinculo := r.vinculo.getD "",
    carga := r.carga.getD "",
    periodo := (coalesceO r.period r.periodo).getD "",
    horas := nInt (coalesceO r.horas_extras r.horas),
    falta_atestado := nInt (coalesceO r.falta_atestado r.faltaA),
    falta_sem_atestado := nInt (coalesceO r.falta_sem_atestado r.faltaS),
    obs := r.obs.getD "" }

/-- Embedding of `POST /api/reports` (src/server.js:73-107): after the
payload check, one plain `INSERT` per record — no `ON CONFLICT`, no
key, duplicates accumulate. -/
def reports (t : List Registro) (source : Option String)
    (records : Option (List RecordIn)) : List Registro × Resp :=
  if source.getD "" = "" ∨ records.isNone then (t, .badRequest "bad_payload")
  else
    let escola := jsTrim (source.getD "")
    (t ++ (records.getD []).map (rowOfRecord escola), .ok)

/-- The natural key of a period record in this schema. -/
def registroKey (r : Registro) : String × String × String :=
  (r.periodo, r.escola, r.matricula)

/-- Embedding of `POST /api/login` (src/server.js:35-39): `senha` is the
destructured request field (absent gives `undefined`, i.e. `none`) and
`adminPassword` is the raw `process.env.ADMIN_PASSWORD` (`none` when the
variable is unset).  JS strict equality `senha === process.env.ADMIN_PASSWORD`
is equality of the two optional values — `undefined === undefined` is true. -/
def login (adminPassword : Option String) (senha : Option String) : LoginResp :=
  if senha = adminPassword then .ok else .unauthorized

end VariantA

/-! ## VariantB — second section of src/server.js (lines 266-757)

Tables `funcionarios` and `registros` with
`UNIQUE (periodo, escola, matricula)` (src/server.js:371-422); the
submission route runs inside a `BEGIN`/`COMMIT`/`ROLLBACK` transaction. -/

namespace VariantB

/-- Row of `funcionarios` (src/server.js:377-385). -/
structure Funcionario where
  matricula : String
  nome : String
  funcao : String
  vinculo : String
  carga : String
deriving Repr, DecidableEq

/-- Row of `registros` (src/server.js:387-401); timestamps omitted. -/
structure Registro where
  id : Nat
  escola : String
  periodo : String
  matricula : String
  nome : String
  horas : Int
  falta_atestado : Int
  falta_sem_atestado : Int
  obs : String
deriving Repr, DecidableEq

/-- Database state of this variant; `nextId` models the `BIGSERIAL`
sequence. -/
structure State where
  funcionarios : List Funcionario
  registros : List Registro
  nextId : Nat
deriving Repr, DecidableEq

/-- One element of the `itens` array of `POST /api/folha/enviar`
(src/server.js:543-551). -/
structure Item where
  matricula : Option String
  nome : Option String
  horas : Option Int
  falta_atestado : Option Int
  falta_sem_atestado : Option Int
  obs : Option String
deriving Repr, DecidableEq

/-- Clamp of the absence counters (src/server.js:549-550 and 695-696):
`Math.min(15, Math.max(0, toInt(v, 0)))`. -/
def clampFalta (v : Option Int) : Int := min 15 (max 0 (toIntD v 0))

/-- Clamp of the hours (src/server.js:548 and 694):
`Math.max(0, toInt(v, 0))`. -/
def clampHoras (v : Option Int) : Int := max 0 (toIntD v 0)

/-- Employee upsert of the submission route (src/server.js:554-559):
`ON CONFLICT (matricula) DO UPDATE SET nome =
COALESCE(NULLIF(EXCLUDED.nome,''), funcionarios.nome)` — an incoming
empty name keeps the stored name; the insert path defaults the other
columns to the empty string. -/
def upsertFuncionario (t : List Funcionario) (matricula nome : String) :
    List Funcionario :=
  Table.upsert (fun f => f.matricula == matricula)
    (fun f => { f with nome := if nome = "" then f.nome else nome })
    { matricula := matricula, nome := nome, funcao := "", vinculo := "",
      carga := "" } t

/-- Conflict key `(periodo, escola, matricula)` of `registros`. -/
def registroHit (periodo escola matricula : String) (r : Registro) : Bool :=
  r.periodo == periodo && r.escola == escola && r.matricula == matricula

/-- The row built for one item by the submission route
(src/server.js:544-551 and 562-573). -/
def registroOfItem (id : Nat) (escola periodo : String) (it : Item) :
    Registro :=
  { id := id, escola := escola, periodo := periodo,
    matricula := jsTrim (it.matricula.getD ""),
    nome := it.nome.getD "",
    horas := clampHoras it.horas,
    falta_atestado := clampFalta it.falta_atestado,
    falta_sem_atestado := clampFalta it.falta_sem_atestado,
    obs := it.obs.getD "" }

/-- Record upsert of the submission route (src/server.js:562-573):
`ON CONFLICT (periodo, escola, matricula) DO UPDATE SET` every
non-key data column from `EXCLUDED`. -/
def upsertRegistro (t : List Registro) (r : Registro) : List Registro :=
  Table.upsert (registroHit r.periodo r.escola r.matricula)
    (fun x =>
      { x with
        nome := r.nome, horas := r.horas,
        falta_atestado := r.falta_atestado,
        falta_sem_atestado := r.falta_sem_atestado, obs := r.obs })
    r t

/-- Processing of one item of the loop (src/server.js:543-574): skip
items with an empty trimmed matricula, otherwise upsert the employee and
then the record.  The `BIGSERIAL` sequence advances on every upsert. -/
def processItem (st : State) (escola periodo : String) (it : Item) : State :=
  let matricula := jsTrim (it.matricula.getD "")
  if matricula = "" then st
  else
    { funcionarios :=
        upsertFuncionario st.funcionarios matricula (it.nome.getD ""),
      registros :=
        upsertRegistro st.registros (registroOfItem st.nextId escola periodo it),
      nextId := st.nextId + 1 }

/-- Embedding of `POST /api/folha/enviar` (src/server.js:529-584),
success path: validation, then the per-item loop. -/
def enviar (st : State) (escola_raw periodo_raw : Option String)
    (itens : List Item) : State × Resp :=
  let escola := jsTrim (escola_raw.getD "")
  if escola = "" then (st, .badRequest "Informe a escola.")
  else
    match normalizePeriodo (periodo_raw.getD "") with
    | none => (st, .badRequest "Período inválido. Use YYYY-MM.")
    | some periodo =>
      if itens.isEmpty then (st, .badRequest "Nenhum item enviado.")
      else (itens.foldl (fun s it => processItem s escola periodo it) st, .ok)

/-- Transaction semantics of the submission route (`BEGIN` at line 541,
`COMMIT` at 576, `ROLLBACK` at 579): `stmtFails` is the oracle for a
database statement inside the transaction failing; in that case every
write of the request is rolled back and the route answers 500.
Validation failures happen before any write. -/
def enviarTx (st : State) (escola_raw periodo_raw : Option String)
    (itens : List Item) (stmtFails : Bool) : State × Resp :=
  match enviar st escola_raw periodo_raw itens with
  | (st', .ok) => if stmtFails then (st, .serverError) else (st', .ok)
  | (_, r) => (st, r)

/-- One aggregated group of the `agg` CTE of `GET /api/admin/mes`
(src/server.js:595-606). -/
structure AggRow where
  horas : Int
  falta_atestado : Int
  falta_sem_atestado : Int
  escolas : String
  obs : String
deriving Repr, DecidableEq

/-- The `agg` CTE grouped row for one matricula: present only when the
employee has at least one record for the period; sums the numeric
columns, string-aggregates the distinct schools (sorted) and the
distinct non-empty trimmed observations. -/
def agg (regs : List Registro) (periodo matricula : String) : Option AggRow :=
  let rows := regs.filter fun r => r.periodo == periodo && r.matricula == matricula
  if rows.isEmpty then none
  else some
    { horas := (rows.map Registro.horas).sum,
      falta_atestado := (rows.map Registro.falta_atestado).sum,
      falta_sem_atestado := (rows.map Registro.falta_sem_atestado).sum,
      escolas := joinSep ", " (sortStrings (rows.map Registro.escola).dedup),
      obs := joinSep " | "
        (((rows.map fun r => jsTrim r.obs).filter fun s => s ≠ "").dedup) }

/-- One output row of `GET /api/admin/mes` (src/server.js:607-617). -/
structure RosterRow where
  matricula : String
  nome : String
  funcao : String
  vinculo : String
  carga : String
  horas : Int
  falta_atestado : Int
  falta_sem_atestado : Int
  escolas : String
  obs : String
deriving Repr, DecidableEq

/-- The `LEFT JOIN agg` output row for one employee, with the
`COALESCE(...,0)` / `COALESCE(...,'')` defaults for employees that have
no record in the period. -/
def rosterRow (regs : List Registro) (periodo : String) (f : Funcionario) :
    RosterRow :=
  match agg regs periodo f.matricula with
  | none =>
      { matricula := f.matricula, nome := f.nome, funcao := f.funcao,
        vinculo := f.vinculo, carga := f.carga,
        horas := 0, falta_atestado := 0, falta_sem_atestado := 0,
        escolas := "", obs := "" }
  | some a =>
      { matricula := f.matricula, nome := f.nome, funcao := f.funcao,
        vinculo := f.vinculo, carga := f.carga,
        horas := a.horas, falta_atestado := a.falta_atestado,
        falta_sem_atestado := a.falta_sem_atestado,
        escolas := a.escolas, obs := a.obs }

/-- Embedding of `GET /api/admin/mes` (src/server.js:588-629): validate
the period, then produce one `LEFT JOIN` row per `funcionarios` row,
ordered by name.  `none` models the 400 response. -/
def adminMes (st : State) (periodo_raw : Option String) :
    Option (List RosterRow) :=
  match normalizePeriodo (periodo_raw.getD "") with
  | none => none
  | some periodo =>
      some (sortBy (fun a b => decide (a.nome ≤ b.nome))
        (st.funcionarios.map (rosterRow st.registros periodo)))

/-- Body of `PUT /api/registros/:id` (src/server.js:692-697). -/
structure PutBody where
  escola : Option String
  periodo : Option String
  horas : Option Int
  falta_atestado : Option Int
  falta_sem_atestado : Option Int
  obs : Option String
deriving Repr, DecidableEq

/-- Embedding of `PUT /api/registros/:id` (src/server.js:688-719):
validate, then `UPDATE registros SET ... WHERE id=$7`, answering 404
when no row matched.  A possible `UNIQUE` violation of the update is not
modeled (it would surface as a 500). -/
def putRegistro (st : State) (id : Nat) (b : PutBody) : State × Resp :=
  let escola := jsTrim (b.escola.getD "")
  let horas := clampHoras b.horas
  let fa := clampFalta b.falta_atestado
  let fs := clampFalta b.falta_sem_atestado
  let obs := b.obs.getD ""
  match normalizePeriodo (b.periodo.getD "") with
  | none => (st, .badRequest "Período inválido. Use YYYY-MM.")
  | some periodo =>
    if escola = "" then (st, .badRequest "Escola é obrigatória.")
    else if st.registros.any (fun r => r.id == id) then
      ({ st with
          registros := st.registros.map fun r =>
            if r.id == id then
              { r with
                escola := escola, periodo := periodo, horas := horas,
                falta_atestado := fa, falta_sem_atestado := fs,
                obs := obs }
            else r }, .ok)
    else (st, .badRequest "Registro não encontrado.")

/-- The natural key protected by the unique constraint
`registros_unique_periodo_escola_matricula` (src/server.js:403-414). -/
def registroKey (r : Registro) : String × String × String :=
  (r.periodo, r.escola, r.matricula)

end VariantB

/-! ## VariantC — third section of src/server.js (lines 758-1168)

Tables `funcionarios` and `folhas` with `unique (periodo, matricula)`
(src/server.js:827-865); `POST /api/folha/enviar`
(src/server.js:984-1054) issues its two upserts as independent
`dbQuery` calls with no transaction. -/

namespace VariantC

/-- Row of `funcionarios` (src/server.js:829-839): every data column is
nullable. -/
structure Funcionario where
  matricula : String
  nome : Option String
  funcao : Option String
  vinculo : Option String
  carga : Option String
  escola : Option String
deriving Repr, DecidableEq

/-- Row of `folhas` (src/server.js:841-857), including the migrated
`falta_com_atestado` column; timestamps omitted. -/
structure Folha where
  periodo : String
  matricula : String
  faltas : Int
  falta_com_atestado : Int
  falta_sem_atestado : Int
  horas_extras : Int
  observacoes : Option String
deriving Repr, DecidableEq

/-- Database state of this variant. -/
structure State where
  funcionarios : List Funcionario
  folhas : List Folha
deriving Repr, DecidableEq

/-- Request body of `POST /api/folha/enviar` (src/server.js:986-1013).
String fields destructure to `null` when absent; numeric fields are
`none` when `+body.x` is not finite. -/
structure Body where
  periodo : String
  matricula : String
  nome : Option String
  funcao : Option String
  vinculo : Option String
  carga : Option String
  escola : Option String
  faltas : Option Int
  falta_com_atestado : Option Int
  falta_sem_atestado : Option Int
  horas_extras : Option Int
  observacoes : Option String
deriving Repr, DecidableEq

/-- The `faltaComAtestado` computation (src/server.js:1008-1010):
accept the new field, falling back to the legacy one, then to 0. -/
def faltaComOf (b : Body) : Int :=
  toIntD b.falta_com_atestado (toIntD b.falta_sem_atestado 0)

/-- Employee upsert of the submission route (src/server.js:1016-1029):
`on conflict (matricula) do update set nome = coalesce(excluded.nome,
funcionarios.nome), ...` — a `null` (absent) value keeps the stored one,
but a non-null value (including the empty string) overwrites. -/
def upsertFuncionario (t : List Funcionario) (matricula : String)
    (nome funcao vinculo carga escola : Option String) : List Funcionario :=
  Table.upsert (fun f => f.matricula == matricula)
    (fun f =>
      { f with
        nome := coalesceO nome f.nome,
        funcao := coalesceO funcao f.funcao,
        vinculo := coalesceO vinculo f.vinculo,
        carga := coalesceO carga f.carga,
        escola := coalesceO escola f.escola })
    { matricula := matricula, nome := nome, funcao := funcao,
      vinculo := vinculo, carga := carga, escola := escola } t

/-- Conflict key `(periodo, matricula)` of `folhas`. -/
def folhaHit (periodo matricula : String) (f : Folha) : Bool :=
  f.periodo == periodo && f.matricula == matricula

/-- The `folhas` row written by the submission route
(src/server.js:1034-1047): the bind list passes the single
`faltaComAtestado` value for both the `falta_com_atestado` and the
`falta_sem_atestado` column (`values ($1,$2,$3,$4,$4,$5,$6, now())`). -/
def folhaOfBody (b : Body) : Folha :=
  { periodo := jsTrim b.periodo, matricula := jsTrim b.matricula,
    faltas := toIntD b.faltas 0,
    falta_com_atestado := faltaComOf b,
    falta_sem_atestado := faltaComOf b,
    horas_extras := toIntD b.horas_extras 0,
    observacoes := b.observacoes }

/-- Record upsert of the submission route (src/server.js:1034-1047):
`on conflict (periodo, matricula) do update set` every data column from
`EXCLUDED`. -/
def upsertFolha (t : List Folha) (new : Folha) : List Folha :=
  Table.upsert (folhaHit new.periodo new.matricula)
    (fun f =>
      { f with
        faltas := new.faltas,
        falta_com_atestado := new.falta_com_atestado,
        falta_sem_atestado := new.falta_sem_atestado,
        horas_extras := new.horas_extras,
        observacoes := new.observacoes })
    new t

/-- Embedding of `POST /api/folha/enviar` (src/server.js:984-1054).
The two upserts are independent `dbQuery` calls with **no transaction**;
`empFails` and `recFails` are the failure oracles for the employee and
the record statement respectively (the `catch` answers 500), so a
failing record statement leaves the employee write in place. -/
def enviar (st : State) (b : Body) (empFails recFails : Bool) :
    State × Resp :=
  let periodo := jsTrim b.periodo
  let matricula := jsTrim b.matricula
  if ¬ matchesPeriodo periodo then
    (st, .badRequest "Período inválido. Use YYYY-MM (ex: 2026-02)")
  else if matricula = "" then
    (st, .badRequest "Matrícula é obrigatória")
  else if empFails then (st, .serverError)
  else
    let st1 :=
      { st with
          funcionarios := upsertFuncionario st.funcionarios matricula
            b.nome b.funcao b.vinculo b.carga b.escola }
    if recFails then (st1, .serverError)
    else ({ st1 with folhas := upsertFolha st1.folhas (folhaOfBody b) }, .ok)

/-- Lookup of an employee row by matricula. -/
def lookupFuncionario (t : List Funcionario) (matricula : String) :
    Option Funcionario :=
  t.find? fun f => f.matricula == matricula

/-- Lookup of the period record for a `(periodo, matricula)` key. -/
def lookupFolha (t : List Folha) (periodo matricula : String) :
    Option Folha :=
  t.find? (folhaHit periodo matricula)

/-- Embedding of `requireAdmin` (src/server.js:898-912): no token gives
401, a token that fails `jwt.verify` (tampered or expired) gives 401,
a verified payload whose `role` is not `"admin"` gives 403, otherwise
the request proceeds. -/
def requireAdmin (secret : String) (auth : Option Token) : GateResult :=
  match auth with
  | none => .unauthorized
  | some t =>
    match jwtVerify secret t with
    | none => .unauthorized
    | some role => if role = "admin" then .proceed else .forbidden

/-- Embedding of `POST /api/login` (src/server.js:934-944): environment
variables default to the empty string (src/server.js:791-792), and the
route fails closed with a 500 configuration error when either
`ADMIN_PASSWORD` or `JWT_SECRET` is unset, before looking at the
password. -/
def login (adminPassword jwtSecret : String) (password : Option String) :
    LoginResp :=
  if adminPassword = "" ∨ jwtSecret = "" then .configError
  else
    let p := password.getD ""
    if p = "" ∨ p ≠ adminPassword then .unauthorized
    else .ok

end VariantC

/-! ## Part001 — src/unnamed/part_001

Tables `employees` and `folha_envios` (part_001:64-106); the employee
upsert of `POST /api/folha/enviar` (part_001:192-205) sets every column
from `EXCLUDED` unconditionally. -/

namespace Part001

/-- Row of `employees` (part_001:68-77); timestamp omitted. -/
structure Employee where
  matricula : String
  nome : String
  funcao : String
  vinculo : String
  carga : String
deriving Repr, DecidableEq

/-- Row of `folha_envios` (part_001:80-97); id, payload and timestamps
omitted. -/
structure FolhaEnvio where
  periodo : String
  escola : String
  matricula : String
  nome : String
  funcao : String
  vinculo : String
  carga : String
  faltas : Int
  horas_extras : Int
  observacao : String
deriving Repr, DecidableEq

/-- Database state of this variant. -/
structure State where
  employees : List Employee
  folha_envios : List FolhaEnvio
deriving Repr, DecidableEq

/-- Embedding of `asText` (part_001:154-157): `null`/`undefined` becomes
the empty string, otherwise trim. -/
def asText (v : Option String) : String := jsTrim (v.getD "")

/-- Embedding of `normalizePeriodo` (part_001:148-152): trim, then the
`^\d{4}-\d{2}$` test. -/
def normalizePeriodo001 (p : Option String) : Option String :=
  let periodo := jsTrim (p.getD "")
  if matchesPeriodo periodo then some periodo else none

/-- Request body of `POST /api/folha/enviar` (part_001:172-189). -/
structure Body where
  periodo : Option String
  escola : Option String
  matricula : Option String
  nome : Option String
  funcao : Option String
  vinculo : Option String
  carga : Option String
  faltas : Option Int
  horas_extras : Option Int
  observacao : Option String
deriving Repr, DecidableEq

/-- Employee upsert of the submission route (part_001:192-205):
`ON CONFLICT (matricula) DO UPDATE SET nome = EXCLUDED.nome, ...` —
every incoming value, including the empty string, overwrites the stored
one. -/
def upsertEmployee (t : List Employee)
    (matricula nome funcao vinculo carga : String) : List Employee :=
  Table.upsert (fun e => e.matricula == matricula)
    (fun e =>
      { e with
        nome := nome, funcao := funcao, vinculo := vinculo, carga := carga })
    { matricula := matricula, nome := nome, funcao := funcao,
      vinculo := vinculo, carga := carga } t

/-- Conflict key `(periodo, escola, matricula)` of `folha_envios`
(unique index `folha_unique_mes`, part_001:100-103). -/
def envioHit (periodo escola matricula : String) (f : FolhaEnvio) : Bool :=
  f.periodo == periodo && f.escola == escola && f.matricula == matricula

/-- Embedding of `POST /api/folha/enviar` (part_001:172-249): validate,
upsert the employee (full overwrite), then upsert the month's record
(full replace). -/
def enviar (st : State) (b : Body) : State × Resp :=
  match normalizePeriodo001 b.periodo with
  | none => (st, .badRequest "periodo inválido. Use YYYY-MM (ex: 2026-02)")
  | some periodo =>
    let escola := asText b.escola
    let matricula := asText b.matricula
    if matricula = "" then (st, .badRequest "matricula é obrigatória")
    else
      let nome := asText b.nome
      let funcao := asText b.funcao
      let vinculo := asText b.vinculo
      let carga := asText b.carga
      let new : FolhaEnvio :=
        { periodo := periodo, escola := escola, matricula := matricula,
          nome := nome, funcao := funcao, vinculo := vinculo, carga := carga,
          faltas := toIntD b.faltas 0,
          horas_extras := toIntD b.horas_extras 0,
          observacao := asText b.observacao }
      ({ employees :=
           upsertEmployee st.employees matricula nome funcao vinculo carga,
         folha_envios :=
           Table.upsert (envioHit periodo escola matricula)
             (fun f =>
               { f with
                 nome := new.nome, funcao := new.funcao,
                 vinculo := new.vinculo, carga := new.carga,
                 faltas := new.faltas, horas_extras := new.horas_extras,
                 observacao := new.observacao })
             new st.folha_envios }, .ok)

/-- Lookup of an employee row by matricula. -/
def lookupEmployee (t : List Employee) (matricula : String) :
    Option Employee :=
  t.find? fun e => e.matricula == matricula

end Part001

/-! ## Part002A — first section of src/unnamed/part_002 (lines 1-294)

`GET /api/admin/folhas` (part_002:167-187) joins `folhas` to
`funcionarios` with an **inner** `JOIN`: employees without a `folhas`
row for the requested month do not appear. -/

namespace Part002A

/-- Row of `funcionarios` (part_002:71-79); timestamp omitted. -/
structure Funcionario where
  matricula : String
  nome : String
  funcao : String
  vinculo : String
  carga : String
  escola : String
deriving Repr, DecidableEq

/-- Row of `folhas` (part_002:81-93); id, payload and timestamp
omitted. -/
structure Folha where
  matricula : String
  ano : Int
  mes : Int
  faltas : Int
  horas_extras : Int
  obs : String
deriving Repr, DecidableEq

/-- One joined output row of `GET /api/admin/folhas`
(part_002:174-175). -/
structure Row where
  matricula : String
  nome : String
  funcao : String
  vinculo : String
  carga : String
  escola : String
  ano : Int
  mes : Int
  faltas : Int
  horas_extras : Int
  obs : String
deriving Repr, DecidableEq

/-- The joined row for a `folhas` row and its `funcionarios` row. -/
def mkRow (f : Folha) (fu : Funcionario) : Row :=
  { matricula := f.matricula, nome := fu.nome, funcao := fu.funcao,
    vinculo := fu.vinculo, carga := fu.carga, escola := fu.escola,
    ano := f.ano, mes := f.mes, faltas := f.faltas,
    horas_extras := f.horas_extras, obs := f.obs }

/-- Embedding of `GET /api/admin/folhas` (part_002:167-187): `normMes`
(part_002:59-64) rejects months outside 1..12 with a 400 (`none`);
otherwise the `folhas` rows of the month are inner-joined to
`funcionarios` and ordered by name.  An employee with no `folhas` row
for the month contributes nothing. -/
def adminFolhas (funcionarios : List Funcionario) (folhas : List Folha)
    (ano mes : Int) : Option (List Row) :=
  if mes < 1 ∨ 12 < mes then none
  else
    some (sortBy (fun a b => decide (a.nome ≤ b.nome))
      ((folhas.filter fun f => f.ano == ano && f.mes == mes).filterMap
        fun f =>
          (funcionarios.find? fun fu => fu.matricula == f.matricula).map
            (mkRow f)))

end Part002A

/-! ## Part002B — second section of src/unnamed/part_002 (lines 295-679)

`POST /api/folha/lancar` (part_002:499-568) **increments** the stored
counters (`SET faltas = COALESCE(faltas,0) + $1, ...`) instead of
replacing them. -/

namespace Part002B

/-- Row of `funcionarios` in this section. -/
structure Funcionario where
  matricula : String
  nome : String
  funcao : String
  vinculo : String
  carga : String
  escola : String
deriving Repr, DecidableEq

/-- Row of `folhas` in this section: keyed by `(mes, matricula)` with
`mes` a `YYYY-MM` string (constraint assumed by
`ON CONFLICT (mes, matricula)`, part_002:376). -/
structure Folha where
  mes : String
  matricula : String
  faltas : Int
  faltas_atestado : Int
  horas_extras : Int
  obs : String
deriving Repr, DecidableEq

/-- Database state of this section. -/
structure State where
  funcionarios : List Funcionario
  folhas : List Folha
deriving Repr, DecidableEq

/-- Embedding of `normalizeMonth` (part_002:342-348): a falsy month
falls back to the current month (`nowMes`, the clock input); otherwise
the `^\d{4}-\d{2}$` test. -/
def normalizeMonth (nowMes : String) (m : Option String) : Option String :=
  if m.getD "" = "" then some nowMes
  else if matchesPeriodo (m.getD "") then some (m.getD "") else none

/-- Embedding of `ensureMonthSheets` (part_002:363-389): insert a zeroed
`folhas` row for every funcionario that does not yet have one for the
month (`ON CONFLICT (mes, matricula) DO NOTHING`). -/
def ensureMonthSheets (st : State) (mes : String) : State :=
  { st with
      folhas := st.folhas ++
        ((st.funcionarios.filter fun f =>
            ¬ st.folhas.any fun fl => fl.mes == mes && fl.matricula == f.matricula).map
          fun f =>
            { mes := mes, matricula := f.matricula, faltas := 0,
              faltas_atestado := 0, horas_extras := 0, obs := "" }) }

/-- Request body of `POST /api/folha/lancar` (part_002:499-509). -/
structure LancarBody where
  mes : Option String
  matricula : Option String
  faltas : Option Int
  faltas_atestado : Option Int
  horas_extras : Option Int
  obs : Option String
deriving Repr, DecidableEq

/-- Embedding of `POST /api/folha/lancar` (part_002:499-568): ensure the
month's rows exist, require the funcionario to exist, then
**add** the submitted `faltas`/`faltas_atestado`/`horas_extras` to the
stored row (`SET faltas = COALESCE(faltas,0) + $1, ...`), replacing
`obs` only when it was sent.  `nowMes` is the clock input used when the
body has no month. -/
def lancar (nowMes : String) (st : State) (b : LancarBody) : State × Resp :=
  match normalizeMonth nowMes b.mes with
  | none => (st, .badRequest "Mês inválido. Use YYYY-MM.")
  | some mes =>
    let matricula := jsTrim (b.matricula.getD "")
    if matricula = "" then (st, .badRequest "Matrícula obrigatória.")
    else
      let faltas := toIntD b.faltas 0
      let fa := toIntD b.faltas_atestado 0
      let he := toIntD b.horas_extras 0
      let st1 := ensureMonthSheets st mes
      if ¬ st1.funcionarios.any (fun f => f.matricula == matricula) then
        (st1, .notFound)
      else
        ({ st1 with
            folhas := st1.folhas.map fun fl =>
              if fl.mes == mes && fl.matricula == matricula then
                { fl with
                  faltas := fl.faltas + faltas,
                  faltas_atestado := fl.faltas_atestado + fa,
                  horas_extras := fl.horas_extras + he,
                  obs := match b.obs with
                         | none => fl.obs
                         | some o => o }
              else fl }, .ok)

/-- Lookup of the month's row for a `(mes, matricula)` key. -/
def lookupFolha (t : List Folha) (mes matricula : String) : Option Folha :=
  t.find? fun f => f.mes == mes && f.matricula == matricula

end Part002B

/-! ## Part004 — src/unnamed/part_004

`requireAdmin` (part_004:69-80) verifies the token but never inspects
the payload's role. -/

namespace Part004

/-- Embedding of `requireAdmin` (part_004:69-80): a missing header gives
401; a token that fails `jwt.verify` gives 401; **any** successfully
verified token proceeds — the payload's role is never checked, so a
valid non-admin credential is accepted. -/
def requireAdmin (secret : String) (auth : Option Token) : GateResult :=
  match auth with
  | none => .unauthorized
  | some t =>
    match jwtVerify secret t with
    | none => .unauthorized
    | some _ => .proceed

/-- Embedding of the validation of `POST /api/folha/enviar`
(part_004:98-107): only truthiness of `periodo` and `matricula` is
checked — no shape requirement at all on the period. -/
def enviarValidates (periodo matricula : Option String) : Bool :=
  ¬ (periodo.getD "" = "" ∨ matricula.getD "" = "")

end Part004

/-! ## Part005A — first section of src/unnamed/part_005 (lines 1-259)

Tables `funcionarios` and `folhas` with `unique(periodo, matricula)`
plus the migrated `falta_com_atestado` column (part_005:31-62);
`POST /api/folha/enviar` (part_005:113-169) binds the single
`faltaCom` value for both absence columns
(`values($1,$2,$3,$4,$5,$6,$7, now())` with `[..., faltaCom, faltaCom,
...]`). -/

namespace Part005A

/-- Row of `funcionarios` (part_005:32-42): every data column is
nullable; timestamp omitted. -/
structure Funcionario where
  matricula : String
  nome : Option String
  funcao : Option String
  vinculo : Option String
  carga : Option String
  escola : Option String
deriving Repr, DecidableEq

/-- Row of `folhas` (part_005:44-59), including the migrated
`falta_com_atestado` column; id and timestamps omitted. -/
structure Folha where
  periodo : String
  matricula : String
  faltas : Int
  falta_com_atestado : Int
  falta_sem_atestado : Int
  horas_extras : Int
  observacoes : Option String
deriving Repr, DecidableEq

/-- Database state of this section. -/
structure State where
  funcionarios : List Funcionario
  folhas : List Folha
deriving Repr, DecidableEq

/-- Request body of `POST /api/folha/enviar` (part_005:115-130). -/
structure Body where
  periodo : String
  matricula : String
  nome : Option String
  funcao : Option String
  vinculo : Option String
  carga : Option String
  escola : Option String
  faltas : Option Int
  falta_com_atestado : Option Int
  falta_sem_atestado : Option Int
  horas_extras : Option Int
  observacoes : Option String
deriving Repr, DecidableEq

/-- The `faltaCom` computation (part_005:125-127): accept the new field,
falling back to the legacy one, then to 0. -/
def faltaComOf (b : Body) : Int :=
  toIntD b.falta_com_atestado (toIntD b.falta_sem_atestado 0)

/-- Employee upsert of the submission route (part_005:133-141):
`on conflict(matricula) do update set atualizado_em = now()` — the
stored data columns are never modified on conflict. -/
def upsertFuncionario (t : List Funcionario) (matricula : String)
    (nome funcao vinculo carga escola : Option String) : List Funcionario :=
  Table.upsert (fun f => f.matricula == matricula)
    (fun f => f)
    { matricula := matricula, nome := nome, funcao := funcao,
      vinculo := vinculo, carga := carga, escola := escola } t

/-- Conflict key `(periodo, matricula)` of `folhas`. -/
def folhaHit (periodo matricula : String) (f : Folha) : Bool :=
  f.periodo == periodo && f.matricula == matricula

/-- The `folhas` row written by the submission route (part_005:144-162):
the bind list passes the single `faltaCom` value for both the
`falta_com_atestado` and the `falta_sem_atestado` column; `observacoes`
is coerced to a string (`(b.observacoes ?? "").toString()`,
part_005:130). -/
def folhaOfBody (b : Body) : Folha :=
  { periodo := jsTrim b.periodo, matricula := jsTrim b.matricula,
    faltas := toIntD b.faltas 0,
    falta_com_atestado := faltaComOf b,
    falta_sem_atestado := faltaComOf b,
    horas_extras := toIntD b.horas_extras 0,
    observacoes := some (b.observacoes.getD "") }

/-- Record upsert of the submission route (part_005:144-162):
`on conflict(periodo, matricula) do update set` every data column from
`EXCLUDED`. -/
def upsertFolha (t : List Folha) (new : Folha) : List Folha :=
  Table.upsert (folhaHit new.periodo new.matricula)
    (fun f =>
      { f with
        faltas := new.faltas,
        falta_com_atestado := new.falta_com_atestado,
        falta_sem_atestado := new.falta_sem_atestado,
        horas_extras := new.horas_extras,
        observacoes := new.observacoes })
    new t

/-- Embedding of `POST /api/folha/enviar` (part_005:113-169), success
path: validate the trimmed period against `^\d{4}-\d{2}$` and the
trimmed matricula against emptiness, upsert the employee (data columns
untouched on conflict), then upsert the month's `folhas` row. -/
def enviar (st : State) (b : Body) : State × Resp :=
  let periodo := jsTrim b.periodo
  let matricula := jsTrim b.matricula
  if ¬ matchesPeriodo periodo then
    (st, .badRequest "Período inválido (use YYYY-MM)")
  else if matricula = "" then
    (st, .badRequest "Matrícula obrigatória")
  else
    let st1 :=
      { st with
          funcionarios := upsertFuncionario st.funcionarios matricula
            b.nome b.funcao b.vinculo b.carga b.escola }
    ({ st1 with folhas := upsertFolha st1.folhas (folhaOfBody b) }, .ok)

/-- Lookup of the period record for a `(periodo, matricula)` key. -/
def lookupFolha (t : List Folha) (periodo matricula : String) :
    Option Folha :=
  t.find? (folhaHit periodo matricula)

end Part005A

/-! ## Concrete fixtures for witnesses and counterexamples -/

namespace Fix

/-- Funcionario on file for the `lancar` accumulation scenario. -/
def c1Funcionario : Part002B.Funcionario :=
  { matricula := "10", nome := "Ana", funcao := "", vinculo := "",
    carga := "", escola := "" }

/-- A `lancar` body sending the given overtime for 2026-02. -/
def c1Lancar (he : Int) : Part002B.LancarBody :=
  { mes := some "2026-02", matricula := some "10", faltas := none,
    faltas_atestado := none, horas_extras := some he, obs := none }

/-- Starting state of the `lancar` scenario. -/
def c1State : Part002B.State := { funcionarios := [c1Funcionario], folhas := [] }

/-- A VariantC submission body carrying the given overtime for
2026-02/matricula 10. -/
def c1Body (he : Int) : VariantC.Body :=
  { periodo := "2026-02", matricula := "10", nome := some "Ana",
    funcao := none, vinculo := none, carga := none, escola := none,
    faltas := some 0, falta_com_atestado := some 0,
    falta_sem_atestado := none, horas_extras := some he,
    observacoes := none }

/-- The stored employee whose name must survive an empty update. -/
def c2Employee : Part001.Employee :=
  { matricula := "10", nome := "Ana", funcao := "Prof", vinculo := "Efetivo",
    carga := "40h" }

/-- A part_001 submission for matricula 10 carrying no name. -/
def c2Body : Part001.Body :=
  { periodo := some "2026-02", escola := some "Escola A",
    matricula := some "10", nome := none, funcao := none, vinculo := none,
    carga := none, faltas := some 1, horas_extras := some 2,
    observacao := none }

/-- Part_001 state holding the employee named Ana. -/
def c2State : Part001.State := { employees := [c2Employee], folha_envios := [] }

/-- The VariantB employee whose name must survive an empty update. -/
def c2Funcionario : VariantB.Funcionario :=
  { matricula := "10", nome := "Ana", funcao := "Prof", vinculo := "Efetivo",
    carga := "40h" }

/-- VariantB employee table for the fill-don't-erase witness. -/
def c2Funcs : List VariantB.Funcionario := [c2Funcionario]

/-- Funcionario present in storage but without any folha row. -/
def c3Funcionario : Part002A.Funcionario :=
  { matricula := "10", nome := "Ana", funcao := "P", vinculo := "E",
    carga := "40", escola := "SEMEC" }

/-- VariantB state with one employee and no records at all. -/
def c3State : VariantB.State :=
  { funcionarios :=
      [{ matricula := "10", nome := "Ana", funcao := "P", vinculo := "E",
         carga := "40" }],
    registros := [], nextId := 0 }

/-- The roster rows `GET /api/admin/mes` produces for `c3State`. -/
def c3Rows : List VariantB.RosterRow :=
  [{ matricula := "10", nome := "Ana", funcao := "P", vinculo := "E",
     carga := "40", horas := 0, falta_atestado := 0, falta_sem_atestado := 0,
     escolas := "", obs := "" }]

/-- One record of the `/api/reports` payload, submitted twice. -/
def c4Record : VariantA.RecordIn :=
  { matricula := some "10", nome := some "Maria", funcao := none,
    vinculo := none, carga := none, period := some "2026-02", periodo := none,
    horas_extras := some 3, horas := none, falta_atestado := some 1,
    faltaA := none, falta_sem_atestado := none, faltaS := none, obs := none }

/-- The `registros` table after submitting `c4Record` twice through
`POST /api/reports`. -/
def c4Table : List VariantA.Registro :=
  (VariantA.reports
    (VariantA.reports [] (some "Escola A") (some [c4Record])).1
    (some "Escola A") (some [c4Record])).1

/-- VariantB state already holding a record at the submitted key. -/
def c4State : VariantB.State :=
  { funcionarios :=
      [{ matricula := "10", nome := "Ana", funcao := "", vinculo := "",
         carga := "" }],
    registros :=
      [{ id := 0, escola := "E", periodo := "2026-02", matricula := "10",
         nome := "Ana", horas := 1, falta_atestado := 0,
         falta_sem_atestado := 0, obs := "" }],
    nextId := 1 }

/-- Item resubmitted for the key already present in `c4State`. -/
def c4Item : VariantB.Item :=
  { matricula := some "10", nome := some "Ana", horas := some 4,
    falta_atestado := some 2, falta_sem_atestado := some 0, obs := none }

/-- VariantC submission body for the no-transaction scenario. -/
def c7Body : VariantC.Body :=
  { periodo := "2026-02", matricula := "10", nome := some "Ana",
    funcao := none, vinculo := none, carga := none, escola := none,
    faltas := some 1, falta_com_atestado := some 1,
    falta_sem_atestado := none, horas_extras := some 5,
    observacoes := none }

/-- Result of the VariantC submission whose record statement fails. -/
def c7Run : VariantC.State × Resp :=
  VariantC.enviar { funcionarios := [], folhas := [] } c7Body false true

/-- VariantB item for the transactional-rollback witness. -/
def c7Item : VariantB.Item :=
  { matricula := some "10", nome := some "Ana", horas := some 2,
    falta_atestado := some 1, falta_sem_atestado := some 0, obs := none }

/-- VariantB state for the transactional-rollback witness. -/
def c7State : VariantB.State :=
  { funcionarios := [], registros := [], nextId := 0 }

/-- Item used to drive the period-validation counterexample through the
submission route. -/
def c8Item : VariantB.Item :=
  { matricula := some "10", nome := some "Ana", horas := some 1,
    falta_atestado := some 0, falta_sem_atestado := some 0, obs := none }

/-- VariantB state holding one record, edited by the clamp witness. -/
def c9State : VariantB.State :=
  { funcionarios :=
      [{ matricula := "10", nome := "Ana", funcao := "", vinculo := "",
         carga := "" }],
    registros :=
      [{ id := 1, escola := "E", periodo := "2026-02", matricula := "10",
         nome := "Ana", horas := 2, falta_atestado := 1,
         falta_sem_atestado := 0, obs := "" }],
    nextId := 2 }

/-- Admin edit sending 999 absences and negative hours. -/
def c9Put : VariantB.PutBody :=
  { escola := some "E", periodo := some "2026-02", horas := some (-3),
    falta_atestado := some 999, falta_sem_atestado := some (-5),
    obs := none }

/-- The row stored after the `c9Put` edit of record 1. -/
def c9Row : VariantB.Registro :=
  { id := 1, escola := "E", periodo := "2026-02", matricula := "10",
    nome := "Ana", horas := 0, falta_atestado := 15,
    falta_sem_atestado := 0, obs := "" }

/-- VariantC submission body for the mirrored-columns witness. -/
def c10Body : VariantC.Body :=
  { periodo := "2026-02", matricula := "10", nome := some "Ana",
    funcao := none, vinculo := none, carga := none, escola := none,
    faltas := some 2, falta_com_atestado := some 3,
    falta_sem_atestado := none, horas_extras := some 4,
    observacoes := some "ok" }

/-- VariantC state for the mirrored-columns witness: the key already
holds diverged values that the submission must overwrite. -/
def c10State : VariantC.State :=
  { funcionarios := [],
    folhas :=
      [{ periodo := "2026-02", matricula := "10", faltas := 9,
         falta_com_atestado := 1, falta_sem_atestado := 7,
         horas_extras := 9, observacoes := none }] }

/-- Part005A submission body for the mirrored-columns witness, sending
only the legacy field. -/
def c10PBody : Part005A.Body :=
  { periodo := "2026-03", matricula := "11", nome := some "Bia",
    funcao := none, vinculo := none, carga := none, escola := none,
    faltas := some 1, falta_com_atestado := none,
    falta_sem_atestado := some 2, horas_extras := some 6,
    observacoes := none }

/-- Part005A state for the mirrored-columns witness: the key already
holds diverged values that the submission must overwrite. -/
def c10PState : Part005A.State :=
  { funcionarios := [],
    folhas :=
      [{ periodo := "2026-03", matricula := "11", faltas := 4,
         falta_com_atestado := 3, falta_sem_atestado := 8,
         horas_extras := 1, observacoes := some "old" }] }

end Fix

/-! ## Generic lemmas about the upsert table semantics -/

namespace Table

variable {α : Type}

theorem find?_map_update (hit : α → Bool) (set : α → α)
    (hp : ∀ x, hit x = true → hit (set x) = true) :
    ∀ (t : List α) (x : α), t.find? hit = some x →
      (t.map fun y => if hit y then set y else y).find? hit = some (set x) := by
  intro t
  induction t with
  | nil => intro x hx; simp [List.find?] at hx
  | cons a l ih =>
      intro x hx
      by_cases ha : hit a = true
      · rw [List.find?_cons_of_pos _ ha] at hx
        cases hx
        simp only [List.map_cons, if_pos ha]
        exact List.find?_cons_of_pos _ (hp a ha)
      · rw [List.find?_cons_of_neg _ ha] at hx
        simp only [List.map_cons, if_neg ha]
        rw [List.find?_cons_of_neg _ ha]
        exact ih x hx

theorem any_of_find?_eq_some {hit : α → Bool} {t : List α} {x : α}
    (h : t.find? hit = some x) : t.any hit = true := by
  have hx := List.find?_some h
  have hmem := List.mem_of_find?_eq_some h
  exact List.any_eq_true.mpr ⟨x, hmem, hx⟩

theorem find?_append_of_none {hit : α → Bool} {t : List α} (l : List α)
    (h : t.find? hit = none) : (t ++ l).find? hit = l.find? hit := by
  induction t with
  | nil => simp
  | cons a s ih =>
      by_cases ha : hit a = true
      · rw [List.find?_cons_of_pos _ ha] at h; exact absurd h (by simp)
      · rw [List.find?_cons_of_neg _ ha] at h
        rw [List.cons_append, List.find?_cons_of_neg _ ha]
        exact ih h

/-- Looking up the conflict key after an upsert that found an existing row
returns that row transformed by the update clause. -/
theorem find?_upsert_of_found {hit : α → Bool} {set : α → α} {new : α}
    {t : List α} {x : α} (h : t.find? hit = some x)
    (hp : ∀ y, hit y = true → hit (set y) = true) :
    (upsert hit set new t).find? hit = some (set x) := by
  unfold upsert
  rw [if_pos (any_of_find?_eq_some h)]
  exact find?_map_update hit set hp t x h

/-- Looking up the conflict key after any upsert returns `new`, provided
the update clause rewrites a conflicting row entirely into `new`. -/
theorem find?_upsert_total {hit : α → Bool} {set : α → α} {new : α}
    (t : List α) (hnew : hit new = true)
    (hset : ∀ y, hit y = true → set y = new) :
    (upsert hit set new t).find? hit = some new := by
  unfold upsert
  by_cases hc : t.any hit = true
  · rw [if_pos hc]
    obtain ⟨x, hmem, hx⟩ := List.any_eq_true.mp hc
    have hfind : (t.find? hit).isSome := List.find?_isSome.mpr ⟨x, hmem, hx⟩
    obtain ⟨x₀, hx₀⟩ : ∃ y, t.find? hit = some y :=
      Option.isSome_iff_exists.mp hfind
    have hres := find?_map_update hit set
      (fun y hy => by rw [hset y hy]; exact hnew) t x₀ hx₀
    rw [hres, hset x₀ (List.find?_some hx₀)]
  · rw [if_neg hc]
    have hnone : t.find? hit = none := by
      rw [List.find?_eq_none]
      intro x hx
      rw [Bool.not_eq_true]
      exact Bool.eq_false_iff.mpr fun hcon =>
        hc (List.any_eq_true.mpr ⟨x, hx, hcon⟩)
    rw [find?_append_of_none _ hnone, List.find?_cons_of_pos _ hnew]

theorem map_update_id {hit : α → Bool} {set : α → α}
    (hid : ∀ y, hit y = true → set y = y) :
    ∀ t : List α, (t.map fun x => if hit x then set x else x) = t := by
  intro t
  induction t with
  | nil => rfl
  | cons a s ih =>
      simp only [List.map_cons, ih]
      by_cases ha : hit a = true
      · rw [if_pos ha, hid a ha]
      · rw [if_neg ha]

/-- When the conflict key is present and the update clause leaves every
conflicting row unchanged, the upsert leaves the whole table unchanged. -/
theorem upsert_eq_self_of_found {hit : α → Bool} {set : α → α} {new : α}
    {t : List α} (hany : t.any hit = true)
    (hid : ∀ y, hit y = true → set y = y) :
    upsert hit set new t = t := by
  unfold upsert
  rw [if_pos hany]
  exact map_update_id hid t

/-- A row whose key equals the new row's key is fully rewritten to `new`
by the update clause; then an upsert never grows the number of distinct
keys: key-uniqueness of the table is preserved. -/
theorem nodup_keys_upsert {κ : Type} [DecidableEq κ] (k : α → κ)
    {hit : α → Bool} {set : α → α} {new : α} {t : List α}
    (hkeep : ∀ x, k (set x) = k x)
    (hhit : ∀ x, hit x = true ↔ k x = k new)
    (h : (t.map k).Nodup) : ((upsert hit set new t).map k).Nodup := by
  unfold upsert
  by_cases hc : t.any hit = true
  · rw [if_pos hc]
    have heq : (t.map fun x => if hit x then set x else x).map k = t.map k := by
      rw [List.map_map]
      apply List.map_congr_left
      intro x _
      by_cases hxh : hit x = true
      · simp only [Function.comp_apply, if_pos hxh, hkeep]
      · simp only [Function.comp_apply, if_neg hxh]
    rw [heq]; exact h
  · rw [if_neg hc, List.map_append, List.map_singleton]
    rw [List.nodup_append]
    refine ⟨h, List.nodup_singleton _, ?_⟩
    intro a ha hb
    rw [List.mem_singleton] at hb
    obtain ⟨x, hx, hkx⟩ := List.mem_map.mp ha
    have : hit x = true := (hhit x).mpr (by rw [hkx, hb])
    exact absurd (List.any_eq_true.mpr ⟨x, hx, this⟩) hc

end Table

/-! ## Lemmas about the insertion sort -/

theorem length_insertSorted (le : α → α → Bool) (a : α) :
    ∀ l : List α, (insertSorted le a l).length = l.length + 1 := by
  intro l
  induction l with
  | nil => rfl
  | cons b s ih =>
      unfold insertSorted
      by_cases h : le a b = true
      · rw [if_pos h]; rfl
      · rw [if_neg h]; simp [ih]

theorem length_sortBy (le : α → α → Bool) :
    ∀ l : List α, (sortBy le l).length = l.length := by
  intro l
  induction l with
  | nil => rfl
  | cons a s ih => unfold sortBy; rw [length_insertSorted, ih]; rfl

theorem mem_insertSorted_of_mem (le : α → α → Bool) (a b : α) :
    ∀ l : List α, b ∈ l → b ∈ insertSorted le a l := by
  intro l
  induction l with
  | nil => intro h; exact absurd h (List.not_mem_nil b)
  | cons c s ih =>
      intro h
      unfold insertSorted
      by_cases hle : le a c = true
      · rw [if_pos hle]; exact List.mem_cons_of_mem a h
      · rw [if_neg hle]
        rcases List.mem_cons.mp h with h1 | h2
        · exact h1 ▸ List.mem_cons_self c _
        · exact List.mem_cons_of_mem c (ih h2)

theorem self_mem_insertSorted (le : α → α → Bool) (a : α) :
    ∀ l : List α, a ∈ insertSorted le a l := by
  intro l
  induction l with
  | nil => exact List.mem_singleton_self a
  | cons c s ih =>
      unfold insertSorted
      by_cases hle : le a c = true
      · rw [if_pos hle]; exact List.mem_cons_self a _
      · rw [if_neg hle]; exact List.mem_cons_of_mem c ih

theorem mem_sortBy_of_mem (le : α → α → Bool) (b : α) :
    ∀ l : List α, b ∈ l → b ∈ sortBy le l := by
  intro l
  induction l with
  | nil => intro h; exact absurd h (List.not_mem_nil b)
  | cons a s ih =>
      intro h
      unfold sortBy
      rcases List.mem_cons.mp h with h1 | h2
      · exact h1 ▸ self_mem_insertSorted le a _
      · exact mem_insertSorted_of_mem le a b _ (ih h2)

/-! ## Helper lemmas about VariantC's submission -/

namespace VariantC

theorem folhaHit_eq {p m : String} {y : Folha}
    (h : folhaHit p m y = true) : y.periodo = p ∧ y.matricula = m := by
  unfold folhaHit at h
  rw [Bool.and_eq_true, beq_iff_eq, beq_iff_eq] at h
  exact h

/-- After a successful submission (no statement failure), the `folhas`
row at the submission's key is exactly the row determined by the body —
independently of whatever was stored before. -/
theorem enviar_ok_lookup (st : State) (b : Body)
    (hok : (enviar st b false false).2 = Resp.ok) :
    lookupFolha (enviar st b false false).1.folhas
      (jsTrim b.periodo) (jsTrim b.matricula) = some (folhaOfBody b) := by
  by_cases hp : matchesPeriodo (jsTrim b.periodo) = true
  · by_cases hm : jsTrim b.matricula = ""
    · exfalso
      unfold enviar at hok
      simp [hp, hm] at hok
    · unfold enviar lookupFolha upsertFolha
      simp only [hp, hm, not_true, Bool.not_eq_true, if_false, if_neg,
        ite_false, Bool.false_eq_true, not_false_eq_true, ite_true, if_true]
      refine Table.find?_upsert_total _ ?_ ?_
      · simp [folhaHit, folhaOfBody]
      · intro y hy
        obtain ⟨h1, h2⟩ := folhaHit_eq hy
        cases y with
        | mk yp ym yf yfc yfs yh yo =>
            simp only [folhaOfBody] at h1 h2 ⊢
            simp [h1, h2]
  · exfalso
    unfold enviar at hok
    simp [hp] at hok

end VariantC

/-! ## Helper lemmas about Part005A's submission -/

namespace Part005A

theorem folhaHitP5_eq {p m : String} {y : Folha}
    (h : folhaHit p m y = true) : y.periodo = p ∧ y.matricula = m := by
  unfold folhaHit at h
  rw [Bool.and_eq_true, beq_iff_eq, beq_iff_eq] at h
  exact h

/-- After a successful part_005 submission, the `folhas` row at the
submission's key is exactly the row determined by the body —
independently of whatever was stored before. -/
theorem enviarP5_ok_lookup (st : State) (b : Body)
    (hok : (enviar st b).2 = Resp.ok) :
    lookupFolha (enviar st b).1.folhas
      (jsTrim b.periodo) (jsTrim b.matricula) = some (folhaOfBody b) := by
  by_cases hp : matchesPeriodo (jsTrim b.periodo) = true
  · by_cases hm : jsTrim b.matricula = ""
    · exfalso
      unfold enviar at hok
      simp [hp, hm] at hok
    · unfold enviar lookupFolha upsertFolha
      simp only [hp, hm, not_true, Bool.not_eq_true, if_false, if_neg,
        ite_false, Bool.false_eq_true, not_false_eq_true, ite_true, if_true]
      refine Table.find?_upsert_total _ ?_ ?_
      · simp [folhaHit, folhaOfBody]
      · intro y hy
        obtain ⟨h1, h2⟩ := folhaHitP5_eq hy
        cases y with
        | mk yp ym yf yfc yfs yh yo =>
            simp only [folhaOfBody] at h1 h2 ⊢
            simp [h1, h2]
  · exfalso
    unfold enviar at hok
    simp [hp] at hok

end Part005A

/-! ## Helper lemmas about VariantB's submission and edits -/

namespace VariantB

theorem registroHit_iff (periodo escola matricula : String) (x : Registro) :
    registroHit periodo escola matricula x = true ↔
      registroKey x = (periodo, escola, matricula) := by
  simp [registroHit, registroKey, Prod.ext_iff, Bool.and_eq_true, beq_iff_eq,
    and_assoc]

theorem processItem_nodup (st : State) (e p : String) (it : Item)
    (h : (st.registros.map registroKey).Nodup) :
    ((processItem st e p it).registros.map registroKey).Nodup := by
  unfold processItem
  by_cases hm : jsTrim (it.matricula.getD "") = ""
  · rw [if_pos hm]; exact h
  · rw [if_neg hm]
    unfold upsertRegistro
    exact Table.nodup_keys_upsert registroKey (fun x => rfl)
      (fun x => registroHit_iff _ _ _ x) h

theorem foldl_processItem_nodup (itens : List Item) :
    ∀ (st : State) (e p : String),
      (st.registros.map registroKey).Nodup →
      ((itens.foldl (fun s it => processItem s e p it) st).registros.map
        registroKey).Nodup := by
  induction itens with
  | nil => intro st e p h; exact h
  | cons it rest ih =>
      intro st e p h
      exact ih (processItem st e p it) e p (processItem_nodup st e p it h)

theorem clampFalta_bounds (v : Option Int) :
    0 ≤ clampFalta v ∧ clampFalta v ≤ 15 :=
  ⟨le_min (by norm_num) (le_max_left 0 _), min_le_left _ _⟩

theorem clampHoras_nonneg (v : Option Int) : 0 ≤ clampHoras v :=
  le_max_left 0 _

end VariantB

/-! ## Claim C1 — replace on resubmission -/

/-- Claim C1, counterexample: the claim asserts that for **every**
period-record key, resubmitting the key stores the second submission's
values and never the sum.  Through `POST /api/folha/lancar`
(src/unnamed/part_002:499-568) this is false: sending `horas_extras 5`
and then `horas_extras 2` for `(mes "2026-02", matricula "10")` leaves
the stored `horas_extras` at `7`, the accumulated sum, not `2`. -/
theorem C1_counterexample :
    (Part002B.lookupFolha
        ((Part002B.lancar "2026-01"
            ((Part002B.lancar "2026-01" Fix.c1State (Fix.c1Lancar 5)).1)
            (Fix.c1Lancar 2)).1).folhas
        "2026-02" "10").map Part002B.Folha.horas_extras = some 7 ∧
    ¬ ((Part002B.lookupFolha
        ((Part002B.lancar "2026-01"
            ((Part002B.lancar "2026-01" Fix.c1State (Fix.c1Lancar 5)).1)
            (Fix.c1Lancar 2)).1).folhas
        "2026-02" "10").map Part002B.Folha.horas_extras = some 2) := by
  decide

/-- Claim C1, amended: through the upsert submission route `POST
/api/folha/enviar` (src/server.js:984-1054), resubmitting the same
`(periodo, matricula)` key replaces the numeric/text fields with the
second submission's values (last-write-wins, no accumulation): after
two successful submissions of the same key, the stored row is exactly
the one determined by the second body alone; the `/api/folha/lancar`
route of src/unnamed/part_002 instead increments the counters (see the
counterexample). -/
theorem C1_theorem (st : VariantC.State) (b1 b2 : VariantC.Body)
    (hok : (VariantC.enviar (VariantC.enviar st b1 false false).1 b2
        false false).2 = Resp.ok) :
    VariantC.lookupFolha
        (VariantC.enviar (VariantC.enviar st b1 false false).1 b2
          false false).1.folhas
        (jsTrim b2.periodo) (jsTrim b2.matricula) =
      some (VariantC.folhaOfBody b2) :=
  VariantC.enviar_ok_lookup _ b2 hok

/-- Claim C1, witness: submitting `horas_extras 5` and then
`horas_extras 2` for the same key stores exactly the second body's row,
whose `horas_extras` is `2`. -/
theorem C1_witness :
    (VariantC.enviar
        (VariantC.enviar { funcionarios := [], folhas := [] }
          (Fix.c1Body 5) false false).1
        (Fix.c1Body 2) false false).2 = Resp.ok ∧
    (VariantC.lookupFolha
        (VariantC.enviar
          (VariantC.enviar { funcionarios := [], folhas := [] }
            (Fix.c1Body 5) false false).1
          (Fix.c1Body 2) false false).1.folhas
        (jsTrim (Fix.c1Body 2).periodo) (jsTrim (Fix.c1Body 2).matricula) =
      some (VariantC.folhaOfBody (Fix.c1Body 2))) ∧
    (VariantC.folhaOfBody (Fix.c1Body 2)).horas_extras = 2 :=
  ⟨by decide,
   C1_theorem { funcionarios := [], folhas := [] } (Fix.c1Body 5)
     (Fix.c1Body 2) (by decide),
   by decide⟩

/-! ## Claim C2 — fill-don't-erase employee merge -/

/-- Claim C2, counterexample: the claim asserts that for **every**
employee upsert triggered by a submission, an incoming empty value never
overwrites a stored non-empty value.  Through `POST /api/folha/enviar`
of src/unnamed/part_001 (employee upsert at lines 192-205, `nome =
EXCLUDED.nome`) this is false: employee "10" stored as "Ana" ends up
with the empty name after a submission carrying no name. -/
theorem C2_counterexample :
    (Part001.lookupEmployee
        ((Part001.enviar Fix.c2State Fix.c2Body).1.employees)
        "10").map Part001.Employee.nome = some "" ∧
    ¬ ((Part001.lookupEmployee
        ((Part001.enviar Fix.c2State Fix.c2Body).1.employees)
        "10").map Part001.Employee.nome = some "Ana") := by
  decide

/-- Claim C2, amended: in the transactional submission route of
src/server.js (employee upsert at lines 554-559, `nome =
COALESCE(NULLIF(EXCLUDED.nome,''), funcionarios.nome)`), an incoming
empty name never overwrites the stored employee: if the employee exists,
the upsert with an empty incoming `nome` leaves the lookup result
unchanged (in particular a stored name "Ana" stays "Ana"); the employee
upsert of src/unnamed/part_001 instead overwrites with the incoming
value (see the counterexample). -/
theorem C2_theorem (funcs : List VariantB.Funcionario) (m : String)
    (f : VariantB.Funcionario)
    (h : funcs.find? (fun x => x.matricula == m) = some f) :
    (VariantB.upsertFuncionario funcs m "").find?
      (fun x => x.matricula == m) = some f := by
  unfold VariantB.upsertFuncionario
  rw [Table.upsert_eq_self_of_found (Table.any_of_find?_eq_some h)
    (fun y hy => by simp)]
  exact h

/-- Claim C2, witness: employee "10" named "Ana" survives an upsert with
an empty incoming name. -/
theorem C2_witness :
    Fix.c2Funcs.find? (fun x => x.matricula == "10") =
      some Fix.c2Funcionario ∧
    (VariantB.upsertFuncionario Fix.c2Funcs "10" "").find?
      (fun x => x.matricula == "10") = some Fix.c2Funcionario :=
  ⟨by decide, C2_theorem Fix.c2Funcs "10" Fix.c2Funcionario (by decide)⟩

/-! ## Claim C3 — roster completeness -/

/-- Claim C3, counterexample: the claim asserts the monthly roster query
returns one row per stored employee even without records.  Through
`GET /api/admin/folhas` of src/unnamed/part_002:167-187 (inner `JOIN`)
this is false: with one stored funcionario and no `folhas` rows the
month query returns the empty list, not one row. -/
theorem C3_counterexample :
    Part002A.adminFolhas [Fix.c3Funcionario] [] 2026 2 = some [] ∧
    ([Fix.c3Funcionario] : List Part002A.Funcionario).length = 1 := by
  decide

/-- Claim C3, amended: `GET /api/admin/mes` of src/server.js:588-629
(`LEFT JOIN agg` with `COALESCE(...,0)` / `COALESCE(...,'')`) returns
exactly one row per stored employee, and every employee with no record
for the period appears with zeroed numeric fields and empty text
fields; the `GET /api/admin/folhas` roster of src/unnamed/part_002 uses
an inner join and omits such employees (see the counterexample). -/
theorem C3_theorem (st : VariantB.State) (praw : Option String) (p : String)
    (rows : List VariantB.RosterRow)
    (hp : normalizePeriodo (praw.getD "") = some p)
    (hr : VariantB.adminMes st praw = some rows) :
    rows.length = st.funcionarios.length ∧
    ∀ f ∈ st.funcionarios,
      (st.registros.filter fun r =>
        r.periodo == p && r.matricula == f.matricula) = [] →
      ({ matricula := f.matricula, nome := f.nome, funcao := f.funcao,
         vinculo := f.vinculo, carga := f.carga, horas := 0,
         falta_atestado := 0, falta_sem_atestado := 0, escolas := "",
         obs := "" } : VariantB.RosterRow) ∈ rows := by
  unfold VariantB.adminMes at hr
  rw [hp] at hr
  injection hr with hr
  subst hr
  constructor
  · rw [length_sortBy, List.length_map]
  · intro f hf hfilter
    have hzero : VariantB.rosterRow st.registros p f =
        { matricula := f.matricula, nome := f.nome, funcao := f.funcao,
          vinculo := f.vinculo, carga := f.carga, horas := 0,
          falta_atestado := 0, falta_sem_atestado := 0, escolas := "",
          obs := "" } := by
      unfold VariantB.rosterRow VariantB.agg
      rw [hfilter]
      rfl
    exact mem_sortBy_of_mem _ _ _
      (hzero ▸ List.mem_map_of_mem (VariantB.rosterRow st.registros p) hf)

/-- Claim C3, witness: a state with one employee and no records yields a
one-row roster whose single row is the zeroed one. -/
theorem C3_witness :
    normalizePeriodo ((some "2026-02").getD "") = some "2026-02" ∧
    VariantB.adminMes Fix.c3State (some "2026-02") = some Fix.c3Rows ∧
    (Fix.c3Rows.length = Fix.c3State.funcionarios.length ∧
     ∀ f ∈ Fix.c3State.funcionarios,
      (Fix.c3State.registros.filter fun r =>
        r.periodo == "2026-02" && r.matricula == f.matricula) = [] →
      ({ matricula := f.matricula, nome := f.nome, funcao := f.funcao,
         vinculo := f.vinculo, carga := f.carga, horas := 0,
         falta_atestado := 0, falta_sem_atestado := 0, escolas := "",
         obs := "" } : VariantB.RosterRow) ∈ Fix.c3Rows) :=
  ⟨by decide, by decide,
   C3_theorem Fix.c3State (some "2026-02") "2026-02" Fix.c3Rows
     (by decide) (by decide)⟩

/-! ## Claim C4 — one row per key -/

/-- Claim C4, counterexample: the claim asserts the store never holds
two period records with the same `(period, matricula, school)` key.
The `registros` table of the first src/server.js section has no unique
constraint and `POST /api/reports` (src/server.js:73-107) inserts
plainly, so submitting the same record twice leaves two rows with the
same key. -/
theorem C4_counterexample :
    ¬ (Fix.c4Table.map VariantA.registroKey).Nodup ∧
    (Fix.c4Table.filter fun r =>
      VariantA.registroKey r = ("2026-02", "Escola A", "10")).length = 2 := by
  decide

/-- Claim C4, amended: in the upsert-based variant of src/server.js
(unique constraint at lines 403-414, `ON CONFLICT` upsert at 562-573),
the invariant of at most one `registros` row per
`(periodo, escola, matricula)` is preserved by every submission —
`POST /api/reports` of the first section instead appends duplicate rows
(see the counterexample). -/
theorem C4_theorem (st : VariantB.State) (escola periodo : Option String)
    (itens : List VariantB.Item)
    (h : (st.registros.map VariantB.registroKey).Nodup) :
    ((VariantB.enviar st escola periodo itens).1.registros.map
      VariantB.registroKey).Nodup := by
  unfold VariantB.enviar
  by_cases he : jsTrim (escola.getD "") = ""
  · rw [if_pos he]; exact h
  · rw [if_neg he]
    cases hp : normalizePeriodo (periodo.getD "") with
    | none => exact h
    | some pp =>
        dsimp only
        by_cases hi : itens.isEmpty = true
        · rw [if_pos hi]; exact h
        · rw [if_neg hi]
          exact VariantB.foldl_processItem_nodup itens st _ pp h

/-- Claim C4, witness: resubmitting the key already present in the
store keeps the key set duplicate-free. -/
theorem C4_witness :
    (Fix.c4State.registros.map VariantB.registroKey).Nodup ∧
    ((VariantB.enviar Fix.c4State (some "E") (some "2026-02")
      [Fix.c4Item]).1.registros.map VariantB.registroKey).Nodup :=
  ⟨by decide,
   C4_theorem Fix.c4State (some "E") (some "2026-02") [Fix.c4Item]
     (by decide)⟩

/-! ## Claim C5 — admin auth gate -/

/-- Claim C5, counterexample: the claim asserts every admin-only
operation answers 403 to a validly signed non-admin credential.
`requireAdmin` of src/unnamed/part_004:69-80 never checks the role: a
token signed with the right secret but role "user" proceeds instead of
being rejected with 403. -/
theorem C5_counterexample :
    Part004.requireAdmin "sec" (some (Token.signed "sec" "user" false)) =
      GateResult.proceed ∧
    GateResult.proceed ≠ GateResult.forbidden := by
  decide

/-- Claim C5, amended: the role-checking `requireAdmin` of
src/server.js:898-912 behaves as the claim demands — no header gives
401, a malformed, expired or tampered token gives 401, a valid non-admin
role gives 403 and a valid admin token proceeds; the `requireAdmin` of
src/unnamed/part_004 never checks the role (see the counterexample),
so the per-gate property does not hold of every variant. -/
theorem C5_theorem (secret tampered role : String)
    (htamper : tampered ≠ secret) (hrole : role ≠ "admin") :
    VariantC.requireAdmin secret none = GateResult.unauthorized ∧
    VariantC.requireAdmin secret (some Token.malformed) =
      GateResult.unauthorized ∧
    VariantC.requireAdmin secret (some (Token.signed secret role true)) =
      GateResult.unauthorized ∧
    VariantC.requireAdmin secret (some (Token.signed tampered role false)) =
      GateResult.unauthorized ∧
    VariantC.requireAdmin secret (some (Token.signed secret role false)) =
      GateResult.forbidden ∧
    VariantC.requireAdmin secret (some (Token.signed secret "admin" false)) =
      GateResult.proceed := by
  refine ⟨rfl, rfl, ?_, ?_, ?_, ?_⟩
  · simp [VariantC.requireAdmin, jwtVerify]
  · simp [VariantC.requireAdmin, jwtVerify, htamper]
  · simp [VariantC.requireAdmin, jwtVerify, hrole]
  · simp [VariantC.requireAdmin, jwtVerify]

/-- Claim C5, witness: the gate outcomes at concrete secrets and
roles. -/
theorem C5_witness :
    (("other" : String) ≠ "sec" ∧ ("user" : String) ≠ "admin") ∧
    (VariantC.requireAdmin "sec" none = GateResult.unauthorized ∧
     VariantC.requireAdmin "sec" (some Token.malformed) =
       GateResult.unauthorized ∧
     VariantC.requireAdmin "sec" (some (Token.signed "sec" "user" true)) =
       GateResult.unauthorized ∧
     VariantC.requireAdmin "sec" (some (Token.signed "other" "user" false)) =
       GateResult.unauthorized ∧
     VariantC.requireAdmin "sec" (some (Token.signed "sec" "user" false)) =
       GateResult.forbidden ∧
     VariantC.requireAdmin "sec" (some (Token.signed "sec" "admin" false)) =
       GateResult.proceed) :=
  ⟨⟨by decide, by decide⟩,
   C5_theorem "sec" "other" "user" (by decide) (by decide)⟩

/-! ## Claim C6 — fail-closed login configuration -/

/-- Claim C6, counterexample: the claim asserts login never succeeds
when the administrator password is unset.  The login of
src/server.js:35-39 compares `senha === process.env.ADMIN_PASSWORD`
directly: with the variable unset and the password field absent both
sides are `undefined`, the comparison is true and login answers
success, not a configuration error. -/
theorem C6_counterexample :
    VariantA.login none none = LoginResp.ok ∧
    LoginResp.ok ≠ LoginResp.configError := by
  decide

/-- Claim C6, amended: the login of src/server.js:934-944 fails closed —
whenever `ADMIN_PASSWORD` or `JWT_SECRET` is unset (the empty string,
the default of src/server.js:791-792), every login attempt, with any
password or none, answers the 500 configuration error and never
success; the login of the first src/server.js section instead accepts
an absent password when the variable is unset (see the
counterexample). -/
theorem C6_theorem :
    (∀ (jwtSecret : String) (password : Option String),
      VariantC.login "" jwtSecret password = LoginResp.configError) ∧
    (∀ (adminPassword : String) (password : Option String),
      VariantC.login adminPassword "" password = LoginResp.configError) := by
  constructor
  · intro s p; simp [VariantC.login]
  · intro a p; simp [VariantC.login]

/-! ## Claim C7 — submission atomicity -/

/-- Claim C7, counterexample: the claim asserts that when either
statement of a submission fails, neither write is visible.  In
`POST /api/folha/enviar` of src/server.js:984-1054 the two upserts are
independent `dbQuery` calls with no transaction: when the record
statement fails (oracle `recFails = true`), the request answers 500 but
the freshly created employee row remains visible while its period
record does not exist. -/
theorem C7_counterexample :
    Fix.c7Run.2 = Resp.serverError ∧
    (VariantC.lookupFuncionario Fix.c7Run.1.funcionarios "10").isSome =
      true ∧
    VariantC.lookupFolha Fix.c7Run.1.folhas "2026-02" "10" = none := by
  decide

/-- Claim C7, amended: the transactional submission route of
src/server.js:529-584 (`BEGIN`/`COMMIT`/`ROLLBACK`) is atomic — for
every request that does not answer success (validation failure or any
statement failing inside the transaction), the state is exactly the
prior state: no employee row and no record row of the request
survives; the non-transactional route of src/server.js:984-1054 leaks
the employee write (see the counterexample). -/
theorem C7_theorem (st : VariantB.State) (escola periodo : Option String)
    (itens : List VariantB.Item) (stmtFails : Bool)
    (hfail : (VariantB.enviarTx st escola periodo itens stmtFails).2 ≠
      Resp.ok) :
    (VariantB.enviarTx st escola periodo itens stmtFails).1 = st := by
  unfold VariantB.enviarTx at *
  rcases h : VariantB.enviar st escola periodo itens with ⟨st2, r⟩
  rw [h] at hfail
  cases r with
  | ok =>
      cases stmtFails with
      | true => rfl
      | false => exact absurd rfl hfail
  | badRequest msg => rfl
  | notFound => rfl
  | serverError => rfl

/-- Claim C7, witness: a valid submission whose transaction fails rolls
back to the exact prior state. -/
theorem C7_witness :
    (VariantB.enviarTx Fix.c7State (some "E") (some "2026-02") [Fix.c7Item]
      true).2 ≠ Resp.ok ∧
    (VariantB.enviarTx Fix.c7State (some "E") (some "2026-02") [Fix.c7Item]
      true).1 = Fix.c7State :=
  ⟨by decide,
   C7_theorem Fix.c7State (some "E") (some "2026-02") [Fix.c7Item] true
     (by decide)⟩

/-! ## Claim C8 — period validation -/

/-- Claim C8, counterexample: the claim asserts a submission succeeds
only when the month lies in 01..12.  The validation is only the regular
expression `^\d{4}-\d{2}$` (src/server.js:342-348): the submission of
period "2026-99" — whose month 99 is outside 01..12 — succeeds. -/
theorem C8_counterexample :
    (VariantB.enviar { funcionarios := [], registros := [], nextId := 0 }
      (some "E") (some "2026-99") [Fix.c8Item]).2 = Resp.ok ∧
    ¬ ((99 : Nat) ≤ 12) := by
  decide

/-- Claim C8, amended: submissions validate the period only against the
shape `^\d{4}-\d{2}$` after trimming: "2026-02" is accepted and
"2026-2", "26-02" and "" are rejected with the validation error, as the
claim states, but no month-range check exists, so "2026-99" is also
accepted; `POST /api/folha/enviar` of src/unnamed/part_004 checks only
that the period is non-empty, accepting even "2026-2". -/
theorem C8_theorem :
    normalizePeriodo "2026-02" = some "2026-02" ∧
    normalizePeriodo "2026-2" = none ∧
    normalizePeriodo "26-02" = none ∧
    normalizePeriodo "" = none ∧
    normalizePeriodo "2026-99" = some "2026-99" ∧
    (VariantB.enviar { funcionarios := [], registros := [], nextId := 0 }
      (some "E") (some "2026-2") [Fix.c8Item]).2 =
      Resp.badRequest "Período inválido. Use YYYY-MM." ∧
    (VariantB.enviar { funcionarios := [], registros := [], nextId := 0 }
      (some "E") (some "2026-02") [Fix.c8Item]).2 = Resp.ok ∧
    Part004.enviarValidates (some "2026-2") (some "10") = true := by
  decide

/-! ## Claim C9 — clamping of counters -/

/-- Claim C9: in the second src/server.js section, both the submission
route (lines 548-550) and the admin edit route (lines 694-696) clamp
the per-item absence counters into 0..15 and the hours to be
non-negative: every stored row they build satisfies the bounds, a
submitted counter of 999 is stored as 15, a negative counter as 0 and
negative hours as 0. -/
theorem C9_theorem :
    (∀ (id : Nat) (escola periodo : String) (it : VariantB.Item),
      0 ≤ (VariantB.registroOfItem id escola periodo it).falta_atestado ∧
      (VariantB.registroOfItem id escola periodo it).falta_atestado ≤ 15 ∧
      0 ≤ (VariantB.registroOfItem id escola periodo it).falta_sem_atestado ∧
      (VariantB.registroOfItem id escola periodo it).falta_sem_atestado
        ≤ 15 ∧
      0 ≤ (VariantB.registroOfItem id escola periodo it).horas) ∧
    (∀ (st : VariantB.State) (rid : Nat) (b : VariantB.PutBody),
      (VariantB.putRegistro st rid b).2 = Resp.ok →
      ∀ r ∈ (VariantB.putRegistro st rid b).1.registros, r.id = rid →
        0 ≤ r.falta_atestado ∧ r.falta_atestado ≤ 15 ∧
        0 ≤ r.falta_sem_atestado ∧ r.falta_sem_atestado ≤ 15 ∧
        0 ≤ r.horas) ∧
    VariantB.clampFalta (some 999) = 15 ∧
    VariantB.clampFalta (some (-5)) = 0 ∧
    VariantB.clampHoras (some (-3)) = 0 := by
  refine ⟨?_, ?_, by decide, by decide, by decide⟩
  · intro id escola periodo it
    exact ⟨(VariantB.clampFalta_bounds _).1, (VariantB.clampFalta_bounds _).2,
      (VariantB.clampFalta_bounds _).1, (VariantB.clampFalta_bounds _).2,
      VariantB.clampHoras_nonneg _⟩
  · intro st rid b hok r hr hid
    unfold VariantB.putRegistro at hok hr
    dsimp only at hok hr
    cases hp : normalizePeriodo (b.periodo.getD "") with
    | none => rw [hp] at hok; exact absurd hok (by simp)
    | some pp =>
        rw [hp] at hok hr
        dsimp only at hok hr
        by_cases he : jsTrim (b.escola.getD "") = ""
        · rw [if_pos he] at hok; exact absurd hok (by simp)
        · rw [if_neg he] at hok hr
          by_cases ha : st.registros.any (fun x => x.id == rid) = true
          · rw [if_pos ha] at hok hr
            simp only at hr
            obtain ⟨x, hx, hxr⟩ := List.mem_map.mp hr
            by_cases hxid : (x.id == rid) = true
            · rw [if_pos hxid] at hxr
              subst hxr
              exact ⟨(VariantB.clampFalta_bounds _).1,
                (VariantB.clampFalta_bounds _).2,
                (VariantB.clampFalta_bounds _).1,
                (VariantB.clampFalta_bounds _).2,
                VariantB.clampHoras_nonneg _⟩
            · rw [if_neg hxid] at hxr
              subst hxr
              exact absurd (beq_iff_eq.mpr hid) hxid
          · rw [if_neg ha] at hok; exact absurd hok (by simp)

/-- Claim C9, witness: editing record 1 with 999 absences, -5 excused
absences and -3 hours stores the clamped row (15, 0, 0), which lies in
the bounds. -/
theorem C9_witness :
    (VariantB.putRegistro Fix.c9State 1 Fix.c9Put).2 = Resp.ok ∧
    Fix.c9Row ∈ (VariantB.putRegistro Fix.c9State 1 Fix.c9Put).1.registros ∧
    Fix.c9Row.id = 1 ∧
    (0 ≤ Fix.c9Row.falta_atestado ∧ Fix.c9Row.falta_atestado ≤ 15 ∧
     0 ≤ Fix.c9Row.falta_sem_atestado ∧ Fix.c9Row.falta_sem_atestado ≤ 15 ∧
     0 ≤ Fix.c9Row.horas) :=
  ⟨by decide, by decide, by decide,
   C9_theorem.2.1 Fix.c9State 1 Fix.c9Put (by decide) Fix.c9Row (by decide)
     (by decide)⟩

/-! ## Claim C10 — mirrored absence columns -/

/-- Claim C10: in both dual-column submit paths — `POST
/api/folha/enviar` of src/server.js:984-1054 (bind list
`values ($1,$2,$3,$4,$4,...)`) and `POST /api/folha/enviar` of
src/unnamed/part_005:113-169 (bind list `[..., faltaCom, faltaCom,
...]`) — every successful submission stores the single incoming excuse
count in both `falta_com_atestado` and `falta_sem_atestado`: the row
stored at the submission's key satisfies
`falta_com_atestado = falta_sem_atestado`, whatever the prior state. -/
theorem C10_theorem (stC : VariantC.State) (bC : VariantC.Body)
    (stP : Part005A.State) (bP : Part005A.Body) :
    ((VariantC.enviar stC bC false false).2 = Resp.ok →
      ∃ f, VariantC.lookupFolha
          (VariantC.enviar stC bC false false).1.folhas
          (jsTrim bC.periodo) (jsTrim bC.matricula) = some f ∧
        f.falta_com_atestado = f.falta_sem_atestado) ∧
    ((Part005A.enviar stP bP).2 = Resp.ok →
      ∃ f, Part005A.lookupFolha (Part005A.enviar stP bP).1.folhas
          (jsTrim bP.periodo) (jsTrim bP.matricula) = some f ∧
        f.falta_com_atestado = f.falta_sem_atestado) :=
  ⟨fun hok =>
    ⟨VariantC.folhaOfBody bC, VariantC.enviar_ok_lookup stC bC hok, rfl⟩,
   fun hok =>
    ⟨Part005A.folhaOfBody bP, Part005A.enviarP5_ok_lookup stP bP hok, rfl⟩⟩

/-- Claim C10, witness: in both variants, a submission over a
previously diverged row leaves the two columns equal. -/
theorem C10_witness :
    (VariantC.enviar Fix.c10State Fix.c10Body false false).2 = Resp.ok ∧
    (∃ f, VariantC.lookupFolha
        (VariantC.enviar Fix.c10State Fix.c10Body false false).1.folhas
        (jsTrim Fix.c10Body.periodo) (jsTrim Fix.c10Body.matricula) =
          some f ∧
      f.falta_com_atestado = f.falta_sem_atestado) ∧
    (Part005A.enviar Fix.c10PState Fix.c10PBody).2 = Resp.ok ∧
    (∃ f, Part005A.lookupFolha
        (Part005A.enviar Fix.c10PState Fix.c10PBody).1.folhas
        (jsTrim Fix.c10PBody.periodo) (jsTrim Fix.c10PBody.matricula) =
          some f ∧
      f.falta_com_atestado = f.falta_sem_atestado) :=
  ⟨by decide,
   (C10_theorem Fix.c10State Fix.c10Body Fix.c10PState Fix.c10PBody).1
     (by decide),
   by decide,
   (C10_theorem Fix.c10State Fix.c10Body Fix.c10PState Fix.c10PBody).2
     (by decide)⟩

end SemecSistema
